import Mathlib

set_option maxHeartbeats 1000000

/-!
Shallow embedding of the notification app in src/App.js: the history buffer
(addToHistory, clearHistory), the latest-notification tracking done by the
two notification listeners, the registration flow
(registerForPushNotificationsAsync), the clipboard copy
(copyTokenToClipboard) and the local test notification
(sendTestNotification).  External effects (clipboard writes, scheduled
notifications, service calls) are made explicit as returned values, and the
Notification Service collaborator is an oracle record whose fields are the
answers the vendor SDK would give.
-/

/-- Permission status reported by the Notification Service
(`Notifications.getPermissionsAsync` / `requestPermissionsAsync`). -/
inductive PermissionStatus
  | granted
  | denied
  | undetermined
  deriving DecidableEq

/-- Content of an incoming notification (`notification.request.content`).
In JavaScript `title` and `body` are string-or-absent and `data` is an
object-or-absent; `data` is modelled as an association list. -/
structure NotificationContent where
  title : Option String
  body : Option String
  data : Option (List (String × String))
  deriving DecidableEq

/-- Request part of an incoming notification (`notification.request`). -/
structure NotificationRequest where
  identifier : String
  content : NotificationContent
  deriving DecidableEq

/-- An incoming notification object as delivered to the listeners. -/
structure Notification where
  request : NotificationRequest
  deriving DecidableEq

/-- Entry built by `addToHistory` (src/App.js lines 76-83). -/
structure HistoryEntry where
  id : String
  title : String
  body : String
  data : List (String × String)
  timestamp : String
  rawNotification : Notification
  deriving DecidableEq

/-- Component state of the App: the four `useState` hooks of src/App.js
lines 28-31. -/
structure AppState where
  expoPushToken : String
  notification : Option Notification
  notificationHistory : List HistoryEntry
  errorMsg : String
  deriving DecidableEq

/-- Initial state: `useState('')`, `useState(null)`, `useState([])`,
`useState('')`. -/
def initialState : AppState :=
  { expoPushToken := "", notification := none,
    notificationHistory := [], errorMsg := "" }

/-- JavaScript `s || dflt` for a string-typed field: absent (`null` /
`undefined`) and the empty string are falsy, every other string is kept. -/
def jsStringOr (v : Option String) (dflt : String) : String :=
  match v with
  | none => dflt
  | some s => if s = "" then dflt else s

/-- JavaScript `d || {\x7d` for the `data` object: only absence is falsy
(an empty object is truthy), so an absent mapping becomes the empty one. -/
def jsDataOr (v : Option (List (String × String))) : List (String × String) :=
  match v with
  | none => []
  | some d => d

/-- The `newNotification` object built by `addToHistory`
(src/App.js lines 76-83). -/
def mkHistoryEntry (n : Notification) (now : String) : HistoryEntry :=
  { id := n.request.identifier,
    title := jsStringOr n.request.content.title "No Title",
    body := jsStringOr n.request.content.body "No Body",
    data := jsDataOr n.request.content.data,
    timestamp := now,
    rawNotification := n }

/-- Buffer update of `addToHistory` (src/App.js line 85):
`[newNotification, ...prev.slice(0, 9)]`. -/
def addToHistory (n : Notification) (now : String)
    (prev : List HistoryEntry) : List HistoryEntry :=
  mkHistoryEntry n now :: prev.take 9

/-- Effect of either notification listener (src/App.js lines 46-66): both
the foreground-receive callback and the tap callback run
`setNotification(notification)` followed by `addToHistory(notification)`. -/
def record (s : AppState) (n : Notification) (now : String) : AppState :=
  { s with notification := some n,
           notificationHistory := addToHistory n now s.notificationHistory }

/-- `clearHistory` (src/App.js lines 89-93): empties the history and resets
the latest notification.  The success alert is a pure UI effect. -/
def clearHistory (s : AppState) : AppState :=
  { s with notificationHistory := [], notification := none }

/-- Oracle for the Notification Service collaborator: the answers the
vendor SDK gives during one run of `registerForPushNotificationsAsync`. -/
structure NotificationService where
  isDevice : Bool
  existingStatus : PermissionStatus
  requestedStatus : PermissionStatus
  pushToken : String
  platformIsAndroid : Bool
  deriving DecidableEq

/-- Outcome of `registerForPushNotificationsAsync`: the two thrown errors
become the Unsupported and Denied variants, a returned token is Ready. -/
inductive RegistrationResult
  | unsupported (message : String)
  | denied (message : String)
  | ready (token : String)
  deriving DecidableEq

/-- Which Notification Service operations a run of
`registerForPushNotificationsAsync` invoked. -/
structure ServiceCalls where
  calledGetPermissions : Bool
  calledRequestPermissions : Bool
  calledGetToken : Bool
  configuredChannel : Bool
  deriving DecidableEq

/-- Error message thrown at src/App.js line 101. -/
def emulatorMessage : String :=
  "Push notifications are not available on emulators. Please use a physical device."

/-- Error message thrown at src/App.js line 114. -/
def permissionMessage : String :=
  "Permission not granted for push notifications!"

/-- The `finalStatus` variable of src/App.js lines 105-111: the existing
status, replaced by the result of `requestPermissionsAsync` when the
existing status is not granted. -/
def finalPermissionStatus (svc : NotificationService) : PermissionStatus :=
  if svc.existingStatus ≠ PermissionStatus.granted then svc.requestedStatus
  else svc.existingStatus

/-- `registerForPushNotificationsAsync` (src/App.js lines 96-137), with the
service calls it performs made explicit. -/
def registerForPushNotificationsAsync (svc : NotificationService) :
    RegistrationResult × ServiceCalls :=
  if !svc.isDevice then
    (RegistrationResult.unsupported emulatorMessage,
      { calledGetPermissions := false, calledRequestPermissions := false,
        calledGetToken := false, configuredChannel := false })
  else
    let requested : Bool := svc.existingStatus != PermissionStatus.granted
    if finalPermissionStatus svc ≠ PermissionStatus.granted then
      (RegistrationResult.denied permissionMessage,
        { calledGetPermissions := true, calledRequestPermissions := requested,
          calledGetToken := false, configuredChannel := false })
    else
      (RegistrationResult.ready svc.pushToken,
        { calledGetPermissions := true, calledRequestPermissions := requested,
          calledGetToken := true, configuredChannel := svc.platformIsAndroid })

/-- `copyTokenToClipboard` (src/App.js lines 140-150): returns what is
written to the clipboard (if anything) and whether a token was available
(`if (expoPushToken)`: in JavaScript only the empty string is falsy). -/
def copyTokenToClipboard (expoPushToken : String) : Option String × Bool :=
  if expoPushToken ≠ "" then (some expoPushToken, true)
  else (none, false)

/-- Content and trigger passed to `scheduleNotificationAsync` by
`sendTestNotification` (src/App.js lines 154-161). -/
structure ScheduleRequest where
  title : String
  body : String
  data : List (String × String)
  delaySeconds : Nat
  deriving DecidableEq

/-- `sendTestNotification` (src/App.js lines 153-163): schedules a fixed
notification after 2 seconds and leaves the component state untouched. -/
def sendTestNotification (s : AppState) : AppState × ScheduleRequest :=
  (s,
    { title := "Test Notification 📬",
      body := "This is a local test notification!",
      data := [("testData", "Test notification data")],
      delaySeconds := 2 })

/-- Operations that mutate the buffer and the latest notification: event
delivery (either listener) and the manual clear. -/
inductive Op
  | record (n : Notification) (now : String)
  | clear
  deriving DecidableEq

/-- Apply one operation to the state. -/
def applyOp (s : AppState) (op : Op) : AppState :=
  match op with
  | Op.record n now => record s n now
  | Op.clear => clearHistory s

/-- Run a sequence of operations. -/
def runOps (s : AppState) (ops : List Op) : AppState :=
  ops.foldl applyOp s

/-- Run a sequence of `record` calls only (event, timestamp). -/
def recordAll (s : AppState) (evs : List (Notification × String)) : AppState :=
  evs.foldl (fun st e => record st e.1 e.2) s

/-- The events received since the last `clear` (all events when no clear
occurred), in receipt order.  Used to state the order invariant. -/
def eventsAfterClear (ops : List Op) : List (Notification × String) :=
  ops.foldl
    (fun acc op =>
      match op with
      | Op.record n now => acc ++ [(n, now)]
      | Op.clear => []) []

/-- A minimal concrete notification used in scenario checks. -/
def simpleNotification (ident : String) : Notification :=
  { request := { identifier := ident,
                 content := { title := some ident, body := some ident,
                              data := none } } }

/-- The eleven-event scenario of the spec: events A, B, ..., K in order,
each timestamped with its own letter. -/
def scenarioEvents : List (Notification × String) :=
  (["A", "B", "C", "D", "E", "F", "G", "H", "I", "J", "K"]).map
    (fun i => (simpleNotification i, i))

/-! Helper lemmas about the buffer dynamics. -/

/-- Unfolding of the buffer update performed by a `record`. -/
theorem record_notificationHistory (s : AppState) (n : Notification)
    (now : String) :
    (record s n now).notificationHistory =
      mkHistoryEntry n now :: s.notificationHistory.take 9 := rfl

/-- Running one more operation after a sequence. -/
theorem runOps_append_single (s : AppState) (ops : List Op) (op : Op) :
    runOps s (ops ++ [op]) = applyOp (runOps s ops) op := by
  simp [runOps, List.foldl_append]

/-- Appending a `record` extends the post-clear event list. -/
theorem eventsAfterClear_append_record (ops : List Op) (n : Notification)
    (now : String) :
    eventsAfterClear (ops ++ [Op.record n now]) =
      eventsAfterClear ops ++ [(n, now)] := by
  simp [eventsAfterClear, List.foldl_append]

/-- Appending a `clear` empties the post-clear event list. -/
theorem eventsAfterClear_append_clear (ops : List Op) :
    eventsAfterClear (ops ++ [Op.clear]) = [] := by
  simp [eventsAfterClear, List.foldl_append]

/-- Characterisation of the buffer after any operation sequence: it is the
ten most recent events received since the last clear, most recent first. -/
theorem runOps_history_spec (ops : List Op) :
    (runOps initialState ops).notificationHistory =
      ((eventsAfterClear ops).map
        (fun e => mkHistoryEntry e.1 e.2)).reverse.take 10 := by
  induction ops using List.reverseRecOn with
  | nil => rfl
  | append_singleton l op ih =>
    cases op with
    | clear =>
      rw [runOps_append_single, eventsAfterClear_append_clear]
      rfl
    | record n now =>
      rw [runOps_append_single, eventsAfterClear_append_record]
      show (record (runOps initialState l) n now).notificationHistory = _
      rw [record_notificationHistory, ih, List.map_append,
        List.reverse_append]
      rw [List.take_take]
      norm_num

/-- A pure `record` sequence is an operation sequence. -/
theorem recordAll_eq_runOps (s : AppState)
    (evs : List (Notification × String)) :
    recordAll s evs = runOps s (evs.map (fun e => Op.record e.1 e.2)) := by
  induction evs generalizing s with
  | nil => rfl
  | cons e rest ih => exact ih (record s e.1 e.2)

/-- On a pure `record` sequence the post-clear events are all the events. -/
theorem eventsAfterClear_records (evs : List (Notification × String)) :
    eventsAfterClear (evs.map (fun e => Op.record e.1 e.2)) = evs := by
  suffices h : ∀ acc : List (Notification × String),
      List.foldl
        (fun acc op =>
          match op with
          | Op.record n now => acc ++ [(n, now)]
          | Op.clear => []) acc (evs.map (fun e => Op.record e.1 e.2)) =
        acc ++ evs by
    simpa [eventsAfterClear] using h []
  induction evs with
  | nil => intro acc; simp
  | cons e rest ih =>
    intro acc
    simpa [List.foldl_cons] using ih (acc ++ [(e.1, e.2)])

/-! Claim theorems. -/

/-- C1: starting from the empty buffer, after any sequence of `record`
calls the buffer is exactly the last ten recorded events in most-recent
first order, its length is `min 10 (number of calls)`, and in the concrete
eleven-event scenario A..K the buffer holds the ids K down to B with A
evicted and K at the head. -/
theorem record_sequence_spec (evs : List (Notification × String)) :
    (recordAll initialState evs).notificationHistory =
      ((evs.map (fun e => mkHistoryEntry e.1 e.2)).reverse).take 10 ∧
    (recordAll initialState evs).notificationHistory.length =
      min 10 evs.length ∧
    ((recordAll initialState scenarioEvents).notificationHistory.map
      (fun h => h.id)) =
      ["K", "J", "I", "H", "G", "F", "E", "D", "C", "B"] := by
  refine ⟨?_, ?_, ?_⟩
  · rw [recordAll_eq_runOps, runOps_history_spec, eventsAfterClear_records]
  · rw [recordAll_eq_runOps, runOps_history_spec, eventsAfterClear_records]
    simp [List.length_take]
  · rfl

/-- C2: in every state reachable from the initial empty state by `record`
and `clear` operations the buffer holds at most ten entries, and the
buffer is the ten most recent events received since the last clear in
most-recent-first order (so insertion order equals receipt order). -/
theorem history_invariant (ops : List Op) :
    (runOps initialState ops).notificationHistory.length ≤ 10 ∧
    (runOps initialState ops).notificationHistory =
      ((eventsAfterClear ops).map
        (fun e => mkHistoryEntry e.1 e.2)).reverse.take 10 := by
  refine ⟨?_, runOps_history_spec ops⟩
  rw [runOps_history_spec]
  exact List.length_take_le 10 _

/-- C3: `clearHistory` yields an empty buffer and an absent latest
notification from every prior state, and it is idempotent. -/
theorem clearHistory_spec (s : AppState) :
    (clearHistory s).notificationHistory = [] ∧
    (clearHistory s).notification = none ∧
    clearHistory (clearHistory s) = clearHistory s :=
  ⟨rfl, rfl, rfl⟩

/-- Invariant relating the latest notification to the buffer head. -/
def latestMatchesHead (s : AppState) : Prop :=
  s.notification =
    s.notificationHistory.head?.map (fun h => h.rawNotification)

/-- Every single operation establishes the head invariant. -/
theorem applyOp_latestMatchesHead (s : AppState) (op : Op) :
    latestMatchesHead (applyOp s op) := by
  cases op with
  | record n now => rfl
  | clear => rfl

/-- The head invariant is preserved by every operation sequence. -/
theorem runOps_latestMatchesHead (ops : List Op) (s : AppState)
    (h : latestMatchesHead s) : latestMatchesHead (runOps s ops) := by
  induction ops generalizing s with
  | nil => exact h
  | cons op rest ih => exact ih (applyOp s op) (applyOp_latestMatchesHead s op)

/-- C4: in every reachable state the latest notification equals the raw
notification of the buffer head (hence it is absent exactly when the
buffer is empty), and after any insertion the latest notification is the
just-recorded event, which also sits at the head of the buffer. -/
theorem latest_head_invariant (ops : List Op) :
    (runOps initialState ops).notification =
      ((runOps initialState ops).notificationHistory.head?).map
        (fun h => h.rawNotification) ∧
    ∀ (s : AppState) (n : Notification) (now : String),
      (record s n now).notification = some n ∧
      (record s n now).notificationHistory.head? =
        some (mkHistoryEntry n now) :=
  ⟨runOps_latestMatchesHead ops initialState rfl,
   fun _ _ _ => ⟨rfl, rfl⟩⟩

/-- C5: on a non-physical device, registration yields the Unsupported
outcome and neither the permission query nor the permission request is
invoked on the Notification Service. -/
theorem emulator_unsupported (svc : NotificationService)
    (h : svc.isDevice = false) :
    (registerForPushNotificationsAsync svc).1 =
      RegistrationResult.unsupported emulatorMessage ∧
    (registerForPushNotificationsAsync svc).2.calledGetPermissions = false ∧
    (registerForPushNotificationsAsync svc).2.calledRequestPermissions =
      false := by
  simp [registerForPushNotificationsAsync, h]

/-- Concrete emulator oracle for the C5 witness. -/
def emulatorService : NotificationService :=
  { isDevice := false, existingStatus := PermissionStatus.undetermined,
    requestedStatus := PermissionStatus.denied, pushToken := "",
    platformIsAndroid := true }

/-- Witness for C5 at a concrete emulator oracle. -/
theorem emulator_unsupported_witness :
    (registerForPushNotificationsAsync emulatorService).1 =
      RegistrationResult.unsupported emulatorMessage ∧
    (registerForPushNotificationsAsync emulatorService).2.calledGetPermissions
      = false ∧
    (registerForPushNotificationsAsync
      emulatorService).2.calledRequestPermissions = false :=
  emulator_unsupported emulatorService rfl

/-- C6: on a physical device, when the final permission status after the
optional request is not granted, registration yields the Denied outcome
(a terminal error value, with no retry) and never requests a registration
token from the Notification Service. -/
theorem permission_denied_terminal (svc : NotificationService)
    (hdev : svc.isDevice = true)
    (h : finalPermissionStatus svc ≠ PermissionStatus.granted) :
    (registerForPushNotificationsAsync svc).1 =
      RegistrationResult.denied permissionMessage ∧
    (registerForPushNotificationsAsync svc).2.calledGetToken = false := by
  simp [registerForPushNotificationsAsync, hdev, h]

/-- Concrete permission-denied oracle for the C6 witness. -/
def deniedService : NotificationService :=
  { isDevice := true, existingStatus := PermissionStatus.undetermined,
    requestedStatus := PermissionStatus.denied, pushToken := "tok",
    platformIsAndroid := true }

/-- Witness for C6 at a concrete permission-denied oracle. -/
theorem permission_denied_terminal_witness :
    (registerForPushNotificationsAsync deniedService).1 =
      RegistrationResult.denied permissionMessage ∧
    (registerForPushNotificationsAsync deniedService).2.calledGetToken =
      false :=
  permission_denied_terminal deniedService rfl (by decide)

/-- C7: the clipboard copy writes the current token to the clipboard if
and only if a token is present (non-empty), and its boolean result reports
exactly whether a token was available. -/
theorem copyToken_spec (t : String) :
    ((copyTokenToClipboard t).2 = true ↔ t ≠ "") ∧
    (copyTokenToClipboard t).1 = (if t ≠ "" then some t else none) := by
  by_cases h : t = ""
  · subst h; simp [copyTokenToClipboard]
  · simp [copyTokenToClipboard, h]

/-- Witness for C7 at a concrete non-empty token. -/
theorem copyToken_spec_witness :
    (copyTokenToClipboard "ExponentPushToken").2 = true :=
  (copyToken_spec "ExponentPushToken").1.mpr (by decide)

/-- C8: `record` never deduplicates: it always prepends the new entry to
the (truncated) buffer whatever ids the buffer holds, and when an entry
with the incoming id survives the truncation the resulting buffer holds at
least two entries with that id. -/
theorem record_no_dedup (buf : List HistoryEntry) (n : Notification)
    (now : String) :
    addToHistory n now buf = mkHistoryEntry n now :: buf.take 9 ∧
    ((∃ x ∈ buf.take 9, x.id = n.request.identifier) →
      2 ≤ (addToHistory n now buf).countP
            (fun x => x.id == n.request.identifier)) := by
  refine ⟨rfl, fun hex => ?_⟩
  obtain ⟨x, hx, hid⟩ := hex
  have h1 : 0 < (buf.take 9).countP
      (fun x => x.id == n.request.identifier) :=
    List.countP_pos_iff.mpr ⟨x, hx, by simp [hid]⟩
  have h2 : ((mkHistoryEntry n now).id == n.request.identifier) = true := by
    simp [mkHistoryEntry]
  show 2 ≤ (mkHistoryEntry n now :: buf.take 9).countP
    (fun x => x.id == n.request.identifier)
  rw [List.countP_cons, if_pos h2]
  omega

/-- A concrete notification whose id collides with an existing entry. -/
def dupNotification : Notification := simpleNotification "dup"

/-- Witness for C8: recording a duplicate id into a one-entry buffer
leaves two entries with that id. -/
theorem record_no_dedup_witness :
    2 ≤ (addToHistory dupNotification "t2"
          [mkHistoryEntry dupNotification "t1"]).countP
          (fun x => x.id == dupNotification.request.identifier) :=
  (record_no_dedup [mkHistoryEntry dupNotification "t1"] dupNotification
    "t2").2 (by decide)

/-- C9: `sendTestNotification` schedules a notification with the fixed
title, body, payload and two-second delay, and leaves the whole component
state (token, latest notification, history) unchanged. -/
theorem sendTestNotification_spec (s : AppState) :
    (sendTestNotification s).1 = s ∧
    (sendTestNotification s).2.title = "Test Notification 📬" ∧
    (sendTestNotification s).2.body = "This is a local test notification!" ∧
    (sendTestNotification s).2.data =
      [("testData", "Test notification data")] ∧
    (sendTestNotification s).2.delaySeconds = 2 :=
  ⟨rfl, rfl, rfl, rfl, rfl⟩

/-- C10: every stored history entry has all display fields populated: an
absent or empty incoming title is stored as "No Title", an absent or empty
incoming body as "No Body", an absent data mapping as the empty mapping,
and the stored title and body are never empty. -/
theorem history_entry_fields (n : Notification) (now : String) :
    ((n.request.content.title = none ∨ n.request.content.title = some "") →
      (mkHistoryEntry n now).title = "No Title") ∧
    ((n.request.content.body = none ∨ n.request.content.body = some "") →
      (mkHistoryEntry n now).body = "No Body") ∧
    (n.request.content.data = none → (mkHistoryEntry n now).data = []) ∧
    (mkHistoryEntry n now).title ≠ "" ∧
    (mkHistoryEntry n now).body ≠ "" := by
  refine ⟨fun ht => ?_, fun hb => ?_, fun hd => ?_, ?_, ?_⟩
  · rcases ht with h | h <;> simp [mkHistoryEntry, jsStringOr, h]
  · rcases hb with h | h <;> simp [mkHistoryEntry, jsStringOr, h]
  · simp [mkHistoryEntry, jsDataOr, hd]
  · show jsStringOr n.request.content.title "No Title" ≠ ""
    cases h : n.request.content.title with
    | none => simp [jsStringOr]
    | some s =>
      by_cases hs : s = "" <;> simp [jsStringOr, hs]
  · show jsStringOr n.request.content.body "No Body" ≠ ""
    cases h : n.request.content.body with
    | none => simp [jsStringOr]
    | some s =>
      by_cases hs : s = "" <;> simp [jsStringOr, hs]

/-- A concrete notification with absent title, empty body, absent data. -/
def emptyContentNotification : Notification :=
  { request := { identifier := "w10",
                 content := { title := none, body := some "",
                              data := none } } }

/-- Witness for C10 at a concrete under-populated notification. -/
theorem history_entry_fields_witness :
    (mkHistoryEntry emptyContentNotification "now").title = "No Title" ∧
    (mkHistoryEntry emptyContentNotification "now").body = "No Body" ∧
    (mkHistoryEntry emptyContentNotification "now").data = [] :=
  ⟨(history_entry_fields emptyContentNotification "now").1 (Or.inl rfl),
   (history_entry_fields emptyContentNotification "now").2.1 (Or.inr rfl),
   (history_entry_fields emptyContentNotification "now").2.2.1 rfl⟩
